import Mathlib

set_option linter.unusedVariables false

/-! Shallow embedding of the anchored-overlay subsystem of the
SmartERP-One-Dashboard-All-Management repository: the floating-position
calculators and the open/close lifecycle logic shared by the popover-family
components (Dropdown, Menu, Tooltip, DatePicker). -/

/-- An axis-aligned rectangle as returned by getBoundingClientRect:
viewport-relative top/left plus width/height.  Measurements are rationals so
that the /2 centering arithmetic is exact. -/
structure Rect where
  top : ℚ
  left : ℚ
  width : ℚ
  height : ℚ
deriving DecidableEq, Repr

/-- DOMRect.bottom. -/
def Rect.bottom (r : Rect) : ℚ := r.top + r.height

/-- DOMRect.right. -/
def Rect.right (r : Rect) : ℚ := r.left + r.width

/-- A viewport-relative rect shifted into document coordinates by the current
scroll offsets. -/
def Rect.shift (r : Rect) (scrollTop scrollLeft : ℚ) : Rect :=
  { r with top := r.top + scrollTop, left := r.left + scrollLeft }

/-- The placement prop of Dropdown/Menu (also the position prop of Tooltip). -/
inductive Side where
  | top
  | bottom
  | left
  | right
deriving DecidableEq, Repr

/-- The align prop.  The source value 'end' is a Lean keyword, embedded here
as end_. -/
inductive Align where
  | start
  | center
  | end_
deriving DecidableEq, Repr

namespace Dropdown

/-- The pure core of updatePosition in Dropdown.tsx (lines 95-144) — the same
code appears verbatim in Menu.tsx (lines 102-151).  Starting from
top = 0, left = 0, the placement switch sets the primary coordinate(s) and the
align switch overwrites the cross-axis coordinate; the result is the pair
passed to setPosition. -/
def resolve (triggerRect contentRect : Rect) (scrollTop scrollLeft : ℚ)
    (placement : Side) (align : Align) (offset : ℚ) : ℚ × ℚ :=
  let start : ℚ × ℚ := (0, 0)
  let afterPlacement : ℚ × ℚ :=
    match placement with
    | .bottom => (triggerRect.bottom + scrollTop + offset, start.2)
    | .top => (triggerRect.top + scrollTop - contentRect.height - offset, start.2)
    | .left =>
        (triggerRect.top + scrollTop,
         triggerRect.left + scrollLeft - contentRect.width - offset)
    | .right =>
        (triggerRect.top + scrollTop,
         triggerRect.right + scrollLeft + offset)
  match align with
  | .start =>
      if placement = .left ∨ placement = .right then
        (triggerRect.top + scrollTop, afterPlacement.2)
      else
        (afterPlacement.1, triggerRect.left + scrollLeft)
  | .center =>
      if placement = .left ∨ placement = .right then
        (triggerRect.top + scrollTop + triggerRect.height / 2
           - contentRect.height / 2, afterPlacement.2)
      else
        (afterPlacement.1, triggerRect.left + scrollLeft
           + triggerRect.width / 2 - contentRect.width / 2)
  | .end_ =>
      if placement = .left ∨ placement = .right then
        (triggerRect.bottom + scrollTop - contentRect.height, afterPlacement.2)
      else
        (afterPlacement.1, triggerRect.right + scrollLeft - contentRect.width)

end Dropdown

namespace Tooltip

/-- The pure core of updatePosition in Tooltip.tsx (lines 93-159).  Unlike
Dropdown, the placement switch sets both coordinates for top/bottom, and the
start branch of the align switch leaves the coordinates unchanged. -/
def resolve (triggerRect tooltipRect : Rect) (scrollTop scrollLeft : ℚ)
    (positionProp : Side) (align : Align) (offset : ℚ) : ℚ × ℚ :=
  let afterPlacement : ℚ × ℚ :=
    match positionProp with
    | .top =>
        (triggerRect.top + scrollTop - tooltipRect.height - offset,
         triggerRect.left + scrollLeft)
    | .bottom =>
        (triggerRect.bottom + scrollTop + offset,
         triggerRect.left + scrollLeft)
    | .left =>
        (triggerRect.top + scrollTop,
         triggerRect.left + scrollLeft - tooltipRect.width - offset)
    | .right =>
        (triggerRect.top + scrollTop,
         triggerRect.right + scrollLeft + offset)
  match align with
  | .start => afterPlacement
  | .center =>
      if positionProp = .left ∨ positionProp = .right then
        (triggerRect.top + scrollTop + triggerRect.height / 2
           - tooltipRect.height / 2, afterPlacement.2)
      else
        (afterPlacement.1, triggerRect.left + scrollLeft
           + triggerRect.width / 2 - tooltipRect.width / 2)
  | .end_ =>
      if positionProp = .left ∨ positionProp = .right then
        (triggerRect.bottom + scrollTop - tooltipRect.height, afterPlacement.2)
      else
        (afterPlacement.1, triggerRect.right + scrollLeft - tooltipRect.width)

end Tooltip

namespace Dropdown

/-- The Dropdown props that drive the visibility logic (lines 47-55) together
with the placement props read by updatePosition.  Menu.tsx declares the
identical prop set. -/
structure Config where
  controlledOpen : Option Bool
  closeOnClick : Bool
  closeOnEscape : Bool
  closeOnBlur : Bool
  placement : Side
  align : Align
  offset : ℚ
deriving Repr

/-- The useState cells of the component (lines 58-59): the internal isOpen
flag and the position pair initialised to (0, 0), plus the trace of values
passed to onOpenChange. -/
structure State where
  isOpen : Bool
  position : ℚ × ℚ
  emitted : List Bool
deriving DecidableEq, Repr

/-- Mount state: closed, position (0, 0), nothing emitted. -/
def init : State := { isOpen := false, position := (0, 0), emitted := [] }

/-- isControlled = controlledOpen !== undefined (line 64). -/
def isControlled (cfg : Config) : Bool := cfg.controlledOpen.isSome

/-- open = isControlled ? controlledOpen : isOpen (line 65): the open flag the
render and the handlers actually read. -/
def effectiveOpen (cfg : Config) (s : State) : Bool :=
  match cfg.controlledOpen with
  | some b => b
  | none => s.isOpen

/-- handleToggle (lines 147-152): flips the internal flag only when
uncontrolled, and always emits !open through onOpenChange. -/
def handleToggle (cfg : Config) (s : State) : State :=
  let s1 := if isControlled cfg then s else { s with isOpen := !s.isOpen }
  { s1 with emitted := s1.emitted ++ [!effectiveOpen cfg s] }

/-- handleClose (lines 154-159): clears the internal flag only when
uncontrolled, and always emits false through onOpenChange. -/
def handleClose (cfg : Config) (s : State) : State :=
  let s1 := if isControlled cfg then s else { s with isOpen := false }
  { s1 with emitted := s1.emitted ++ [false] }

/-- handleItemClick (lines 161-166), restricted to its effect on the overlay
state. -/
def handleItemClick (cfg : Config) (s : State) : State :=
  if cfg.closeOnClick then handleClose cfg s else s

/-- handleEscape (lines 80-84): on a keydown, closes when closeOnEscape is
set, the key is Escape and the overlay is open. -/
def handleEscape (cfg : Config) (s : State) (key : String) : State :=
  if cfg.closeOnEscape = true ∧ key = "Escape" ∧ effectiveOpen cfg s = true then
    handleClose cfg s
  else s

/-- handleBlur (lines 168-172): closes when closeOnBlur is set and the blur
event's relatedTarget lies outside the dropdown subtree. -/
def handleBlur (cfg : Config) (s : State) (relatedTargetInside : Bool) : State :=
  if cfg.closeOnBlur = true ∧ relatedTargetInside = false then
    handleClose cfg s
  else s

/-- updatePosition (lines 92-145) as a state step.  The two refs are passed as
optional rects: none embeds a null ref, taking line 93's early return, so the
stored position is untouched; when both measure, the resolved pair is stored
by setPosition. -/
def updatePosition (cfg : Config) (triggerRect contentRect : Option Rect)
    (scrollTop scrollLeft : ℚ) (s : State) : State :=
  match triggerRect, contentRect with
  | some tr, some cr =>
      { s with position :=
          resolve tr cr scrollTop scrollLeft cfg.placement cfg.align cfg.offset }
  | _, _ => s

/-- The events a mounted Dropdown can receive.  docClick is a document-level
click carrying whether its target lies inside the trigger or the content
subtree. -/
inductive Event where
  | triggerClick
  | itemClick
  | keydown (key : String)
  | blur (relatedTargetInside : Bool)
  | docClick (targetInsideTrigger targetInsideContent : Bool)
deriving DecidableEq, Repr

/-- Event dispatch as wired in the source: onClick on the trigger (line 184),
onBlur on the root (line 178), the document keydown listener attached only
while open (lines 86-89), and item clicks (line 284 with line 161).  The
component registers no document-level click or mousedown listener, so a
docClick reaches no handler and leaves the state unchanged. -/
def dispatch (cfg : Config) (s : State) : Event → State
  | .triggerClick => handleToggle cfg s
  | .itemClick => handleItemClick cfg s
  | .keydown key => if effectiveOpen cfg s then handleEscape cfg s key else s
  | .blur inside => handleBlur cfg s inside
  | .docClick _ _ => s

/-- Where the floating content div is rendered (lines 191-203): it exists
exactly while open, and its style always reads the current position state. -/
def floatingStyle (cfg : Config) (s : State) : Option (ℚ × ℚ) :=
  if effectiveOpen cfg s then some s.position else none

/-- The default props of Dropdown.tsx (lines 49-55) in uncontrolled mode. -/
def defaultConfig : Config :=
  { controlledOpen := none, closeOnClick := true, closeOnEscape := true,
    closeOnBlur := true, placement := .bottom, align := .start, offset := 8 }

end Dropdown

namespace Menu

/-- Menu.tsx lines 86-97 and 154-179 are textually identical to the Dropdown
handlers (same isControlled/open derivation, same handleEscape, handleClose,
handleToggle, handleBlur and dispatch wiring), so the Menu machine is embedded
as the same functions. -/
def dispatch : Dropdown.Config → Dropdown.State → Dropdown.Event →
    Dropdown.State := Dropdown.dispatch

/-- Menu.tsx line 72, identical to Dropdown.tsx line 65. -/
def effectiveOpen : Dropdown.Config → Dropdown.State → Bool :=
  Dropdown.effectiveOpen

end Menu

/-- A window-listener registration: event name, handler identity (each render
of a component closes over a fresh updatePosition, embedded as a number), and
the capture flag. -/
abbrev Listener := String × ℕ × Bool

/-- window.addEventListener: appends a registration to the target's listener
list (each open effect registers a fresh closure, so the DOM's
identical-triple dedup rule cannot apply here). -/
def addWindowListener (ls : List Listener) (l : Listener) : List Listener :=
  ls ++ [l]

/-- window.removeEventListener: removes the first registration matching the
event name, the handler and the capture flag; a no-op when none matches. -/
def removeWindowListener (ls : List Listener) (l : Listener) : List Listener :=
  ls.erase l

namespace Dropdown

/-- The open effect of Dropdown.tsx lines 68-71: register updatePosition
(closure identity h) for resize and scroll, both without capture. -/
def openListeners (h : ℕ) (ls : List Listener) : List Listener :=
  addWindowListener (addWindowListener ls ("resize", h, false))
    ("scroll", h, false)

/-- The effect cleanup of lines 72-75, run on close and on unmount: remove
the same two registrations. -/
def cleanupListeners (h : ℕ) (ls : List Listener) : List Listener :=
  removeWindowListener (removeWindowListener ls ("resize", h, false))
    ("scroll", h, false)

end Dropdown

namespace Tooltip

/-- The open effect of Tooltip.tsx lines 79-81: resize without capture,
scroll with capture true. -/
def openListeners (h : ℕ) (ls : List Listener) : List Listener :=
  addWindowListener (addWindowListener ls ("resize", h, false))
    ("scroll", h, true)

/-- The effect cleanup of lines 82-85: removes the same two registrations
with the same capture flags. -/
def cleanupListeners (h : ℕ) (ls : List Listener) : List Listener :=
  removeWindowListener (removeWindowListener ls ("resize", h, false))
    ("scroll", h, true)

/-- The trigger prop of Tooltip.tsx. -/
inductive TriggerMode where
  | hover
  | click
  | focus
deriving DecidableEq, Repr

/-- The Tooltip props that drive visibility. -/
structure Config where
  disabled : Bool
  trigger : TriggerMode
  delay : ℕ
deriving Repr

/-- The visibility state: the isVisible flag (line 57) and the pending
setTimeout of timeoutRef (line 64), stored as the absolute time at which the
scheduled setIsVisible(true) would run. -/
structure State where
  isVisible : Bool
  pendingFireAt : Option ℕ
deriving DecidableEq, Repr

/-- Mount state: hidden, no pending timer. -/
def init : State := { isVisible := false, pendingFireAt := none }

/-- The event loop delivering a due setTimeout callback: at time now, a timer
scheduled for tf ≤ now runs setIsVisible(true) and clears itself. -/
def fireDue (now : ℕ) (s : State) : State :=
  match s.pendingFireAt with
  | some tf =>
      if tf ≤ now then { isVisible := true, pendingFireAt := none } else s
  | none => s

/-- showTooltip (lines 162-169) invoked at absolute time now: blocked when
disabled; with a positive delay it only schedules the open. -/
def showTooltip (cfg : Config) (now : ℕ) (s : State) : State :=
  if cfg.disabled then s
  else if 0 < cfg.delay then { s with pendingFireAt := some (now + cfg.delay) }
  else { s with isVisible := true }

/-- hideTooltip (lines 171-177): clears any pending timer and hides. -/
def hideTooltip (s : State) : State :=
  { isVisible := false, pendingFireAt := none }

/-- handleMouseEnter (lines 179-183). -/
def handleMouseEnter (cfg : Config) (now : ℕ) (s : State) : State :=
  if cfg.trigger = .hover then showTooltip cfg now s else s

/-- handleMouseLeave (lines 185-189). -/
def handleMouseLeave (cfg : Config) (s : State) : State :=
  if cfg.trigger = .hover then hideTooltip s else s

/-- handleClick (lines 191-195): toggles isVisible directly, with no disabled
check and no delay. -/
def handleClick (cfg : Config) (s : State) : State :=
  if cfg.trigger = .click then { s with isVisible := !s.isVisible } else s

/-- handleFocus (lines 197-201). -/
def handleFocus (cfg : Config) (now : ℕ) (s : State) : State :=
  if cfg.trigger = .focus then showTooltip cfg now s else s

/-- handleBlur (lines 203-207). -/
def handleBlur (cfg : Config) (s : State) : State :=
  if cfg.trigger = .focus then hideTooltip s else s

/-- The pointer/focus events delivered to the wrapper div (lines 273-277). -/
inductive Event where
  | mouseEnter
  | mouseLeave
  | click
  | focus
  | blur
deriving DecidableEq, Repr

/-- Event dispatch per the JSX wiring. -/
def dispatch (cfg : Config) (now : ℕ) (s : State) : Event → State
  | .mouseEnter => handleMouseEnter cfg now s
  | .mouseLeave => handleMouseLeave cfg s
  | .click => handleClick cfg s
  | .focus => handleFocus cfg now s
  | .blur => handleBlur cfg s

/-- Run a timestamped event trace: the event loop is single-threaded, so any
due timer callback runs before each event is handled. -/
def runEvents (cfg : Config) : List (ℕ × Event) → State → State
  | [], s => s
  | (t, e) :: rest, s => runEvents cfg rest (dispatch cfg t (fireDue t s) e)

/-- Observing the component at time now: due timer callbacks have run. -/
def observe (now : ℕ) (s : State) : State := fireDue now s

/-- updatePosition of Tooltip.tsx (lines 90-160) as a step on the stored
tooltipPos (line 58): a null ref (line 91) takes the early return and leaves
the stored pair untouched; otherwise setTooltipPos stores the resolved
pair. -/
def updatePositionStep (triggerRect tooltipRect : Option Rect)
    (scrollTop scrollLeft : ℚ) (positionProp : Side) (align : Align)
    (offset : ℚ) (pos : ℚ × ℚ) : ℚ × ℚ :=
  match triggerRect, tooltipRect with
  | some tr, some tt => resolve tr tt scrollTop scrollLeft positionProp align offset
  | _, _ => pos

end Tooltip

namespace DatePicker

/-- The open flag of DatePicker.tsx (line 39). -/
structure State where
  isOpen : Bool
deriving DecidableEq, Repr

/-- handleClickOutside (lines 59-63): on a document mousedown, close when the
calendar div is mounted and the click target is outside it.  The calendar div
holding calendarRef is rendered exactly while isOpen (line 265), and the
listener itself is attached only while isOpen (lines 65-68). -/
def handleClickOutside (s : State) (calendarMounted targetInsideCalendar : Bool) :
    State :=
  if calendarMounted = true ∧ targetInsideCalendar = false then
    { isOpen := false }
  else s

/-- The document mousedown path: listener attached only while open, and the
calendar is mounted exactly while open. -/
def mousedown (s : State) (targetInsideCalendar : Bool) : State :=
  if s.isOpen then handleClickOutside s s.isOpen targetInsideCalendar else s

end DatePicker

/-- The default Dropdown props with the blur close path switched off
(closeOnBlur={false}). -/
def Dropdown.noBlurConfig : Dropdown.Config :=
  { Dropdown.defaultConfig with closeOnBlur := false }

/-- The state reached from mount by clicking the trigger once under the
no-blur configuration: the dropdown is open. -/
def Dropdown.openedNoBlur : Dropdown.State :=
  Dropdown.handleToggle Dropdown.noBlurConfig Dropdown.init

/-- The state reached from mount by clicking the trigger once under the
default configuration: the dropdown is open. -/
def Dropdown.openedDefault : Dropdown.State :=
  Dropdown.handleToggle Dropdown.defaultConfig Dropdown.init

/-- The default Dropdown props in controlled mode with open={true}. -/
def Dropdown.controlledConfig : Dropdown.Config :=
  { Dropdown.defaultConfig with controlledOpen := some true }

/-- The default Dropdown props with closeOnEscape={false}. -/
def Dropdown.noEscapeConfig : Dropdown.Config :=
  { Dropdown.defaultConfig with closeOnEscape := false }

/-- The geometry resolver exactly as the spec's §4.1 contract words it, with
trigger and floating bounds already in document coordinates.  This definition
follows the spec text and serves only as the comparison target for the
refinement theorem about the source resolvers. -/
def specResolvePosition (trigger floating : Rect) (side : Side) (align : Align)
    (offset : ℚ) : ℚ × ℚ :=
  match side with
  | .bottom =>
      (trigger.bottom + offset, specCrossHorizontal trigger floating align)
  | .top =>
      (trigger.top - floating.height - offset,
       specCrossHorizontal trigger floating align)
  | .left =>
      (specCrossVertical trigger floating align,
       trigger.left - floating.width - offset)
  | .right =>
      (specCrossVertical trigger floating align, trigger.right + offset)
where
  /-- Cross-axis left for side ∈ {top, bottom}, per the spec's align rules. -/
  specCrossHorizontal (trigger floating : Rect) : Align → ℚ
    | .start => trigger.left
    | .center => trigger.left + trigger.width / 2 - floating.width / 2
    | .end_ => trigger.right - floating.width
  /-- Cross-axis top for side ∈ {left, right}: the spec's symmetric rule. -/
  specCrossVertical (trigger floating : Rect) : Align → ℚ
    | .start => trigger.top
    | .center => trigger.top + trigger.height / 2 - floating.height / 2
    | .end_ => trigger.bottom - floating.height

/-- The Dropdown/Menu resolver agrees with the spec's §4.1 formulas once the
trigger rect is shifted into document coordinates. -/
lemma dropdown_resolve_refines_spec (tr cr : Rect) (st sl : ℚ) (side : Side)
    (align : Align) (offset : ℚ) :
    Dropdown.resolve tr cr st sl side align offset =
      specResolvePosition (tr.shift st sl) cr side align offset := by
  cases side <;> cases align <;>
    simp [Dropdown.resolve, specResolvePosition,
      specResolvePosition.specCrossHorizontal,
      specResolvePosition.specCrossVertical,
      Rect.shift, Rect.bottom, Rect.right, Prod.ext_iff] <;>
    first
      | ring1
      | trivial
      | (constructor <;> first | ring1 | trivial)

/-- The Tooltip resolver agrees with the spec's §4.1 formulas once the
trigger rect is shifted into document coordinates. -/
lemma tooltip_resolve_refines_spec (tr cr : Rect) (st sl : ℚ) (side : Side)
    (align : Align) (offset : ℚ) :
    Tooltip.resolve tr cr st sl side align offset =
      specResolvePosition (tr.shift st sl) cr side align offset := by
  cases side <;> cases align <;>
    simp [Tooltip.resolve, specResolvePosition,
      specResolvePosition.specCrossHorizontal,
      specResolvePosition.specCrossVertical,
      Rect.shift, Rect.bottom, Rect.right, Prod.ext_iff] <;>
    first
      | ring1
      | trivial
      | (constructor <;> first | ring1 | trivial)

/-- C1: the Dropdown/Menu and Tooltip position resolvers obey the spec's §4.1
formulas for every trigger rect, floating rect, scroll offsets, offset, side
and align (with trigger bounds taken in document coordinates), and on the
spec's concrete inputs — trigger (top 100, left 100, width 50, height 20),
floating 80×40, offset 8, zero scroll — side=bottom/align=start yields
(128, 100), side=top/align=center yields (52, 85) and side=right/align=end
yields (80, 158). -/
theorem C1_placement_formulas :
    (∀ (tr cr : Rect) (st sl : ℚ) (side : Side) (align : Align) (offset : ℚ),
      Dropdown.resolve tr cr st sl side align offset =
        specResolvePosition (tr.shift st sl) cr side align offset ∧
      Tooltip.resolve tr cr st sl side align offset =
        specResolvePosition (tr.shift st sl) cr side align offset) ∧
    Dropdown.resolve ⟨100, 100, 50, 20⟩ ⟨0, 0, 80, 40⟩ 0 0 .bottom .start 8
      = (128, 100) ∧
    Dropdown.resolve ⟨100, 100, 50, 20⟩ ⟨0, 0, 80, 40⟩ 0 0 .top .center 8
      = (52, 85) ∧
    Dropdown.resolve ⟨100, 100, 50, 20⟩ ⟨0, 0, 80, 40⟩ 0 0 .right .end_ 8
      = (80, 158) := by
  refine ⟨fun tr cr st sl side align offset =>
      ⟨dropdown_resolve_refines_spec tr cr st sl side align offset,
       tooltip_resolve_refines_spec tr cr st sl side align offset⟩,
    ?_, ?_, ?_⟩ <;>
    norm_num [Dropdown.resolve, Rect.bottom, Rect.right, Prod.ext_iff] <;>
    decide

/-- C2 counterexample: under the default uncontrolled configuration, one
trigger click from the mount state opens the dropdown, and the very first
rendered frame — before any measurement effect has run — places the floating
content div at the default position (0, 0): the position state is an
always-present pair initialised to (0, 0), never null. -/
theorem C2_counterexample :
    Dropdown.floatingStyle Dropdown.defaultConfig Dropdown.openedDefault
        = some (0, 0) ∧
    Dropdown.floatingStyle Dropdown.defaultConfig Dropdown.openedDefault
        ≠ none := by
  refine ⟨rfl, ?_⟩
  intro h
  have h2 : (some ((0 : ℚ), (0 : ℚ)) : Option (ℚ × ℚ)) = none := h
  exact Option.noConfusion h2

/-- C2 (amended): Dropdown.tsx initialises position to the non-null pair
(0, 0); on the first rendered frame after isOpen becomes true, before the
post-render measurement effect runs, the floating box is rendered at that
default (0, 0); the position is replaced by the resolver output on the first
measurement pass in which both refs are attached. -/
theorem C2_default_position_first_frame (cfg : Dropdown.Config)
    (hunc : cfg.controlledOpen = none) :
    Dropdown.init.position = (0, 0) ∧
    Dropdown.floatingStyle cfg (Dropdown.handleToggle cfg Dropdown.init)
        = some (0, 0) ∧
    (∀ (tr cr : Rect) (st sl : ℚ) (s : Dropdown.State),
      (Dropdown.updatePosition cfg (some tr) (some cr) st sl s).position =
        Dropdown.resolve tr cr st sl cfg.placement cfg.align cfg.offset) := by
  refine ⟨rfl, ?_, ?_⟩
  · simp [Dropdown.floatingStyle, Dropdown.handleToggle, Dropdown.isControlled,
      Dropdown.effectiveOpen, Dropdown.init, hunc]
  · intro tr cr st sl s
    simp [Dropdown.updatePosition]

/-- C2 witness: the amended statement instantiated at the default
uncontrolled configuration. -/
theorem C2_default_position_first_frame_witness :
    Dropdown.init.position = (0, 0) ∧
    Dropdown.floatingStyle Dropdown.defaultConfig
        (Dropdown.handleToggle Dropdown.defaultConfig Dropdown.init)
        = some (0, 0) ∧
    (∀ (tr cr : Rect) (st sl : ℚ) (s : Dropdown.State),
      (Dropdown.updatePosition Dropdown.defaultConfig (some tr) (some cr)
          st sl s).position =
        Dropdown.resolve tr cr st sl Dropdown.defaultConfig.placement
          Dropdown.defaultConfig.align Dropdown.defaultConfig.offset) :=
  C2_default_position_first_frame Dropdown.defaultConfig rfl

/-- C3 counterexample: an open Dropdown (uncontrolled, closeOnBlur=false)
receives a document-level click whose target is outside both the trigger and
the content subtree, and stays open — the component registers no document
click listener, and even the accompanying focus-loss blur does not close it
when closeOnBlur is off, so no click-outside close path independent of the
blur path exists. -/
theorem C3_counterexample :
    Dropdown.effectiveOpen Dropdown.noBlurConfig Dropdown.openedNoBlur
        = true ∧
    Dropdown.dispatch Dropdown.noBlurConfig Dropdown.openedNoBlur
        (.docClick false false) = Dropdown.openedNoBlur ∧
    Dropdown.effectiveOpen Dropdown.noBlurConfig
        (Dropdown.dispatch Dropdown.noBlurConfig Dropdown.openedNoBlur
          (.blur false)) = true := by
  refine ⟨rfl, rfl, rfl⟩

/-- C3 (amended): only DatePicker has a document-level click-outside close
path — while open, a mousedown whose target is outside the calendar subtree
closes it.  Dropdown and Menu attach no document click listener, so a click
outside both subtrees leaves their state unchanged; they close on outside
interaction only through the blur handler when closeOnBlur=true. -/
theorem C3_outside_click_paths (ds : DatePicker.State)
    (cfg : Dropdown.Config) (s : Dropdown.State) (e1 e2 : Bool)
    (hopen : ds.isOpen = true) (hunc : cfg.controlledOpen = none)
    (hblur : cfg.closeOnBlur = true) :
    (DatePicker.mousedown ds false).isOpen = false ∧
    Dropdown.dispatch cfg s (.docClick e1 e2) = s ∧
    Menu.dispatch cfg s (.docClick e1 e2) = s ∧
    Dropdown.effectiveOpen cfg
        (Dropdown.dispatch cfg s (.blur false)) = false := by
  refine ⟨?_, rfl, rfl, ?_⟩
  · simp [DatePicker.mousedown, DatePicker.handleClickOutside, hopen]
  · simp [Dropdown.dispatch, Dropdown.handleBlur, Dropdown.handleClose,
      Dropdown.isControlled, Dropdown.effectiveOpen, hblur, hunc]

/-- C3 witness: the amended statement instantiated at an open DatePicker and
an open default-configuration Dropdown. -/
theorem C3_outside_click_paths_witness :
    (DatePicker.mousedown ⟨true⟩ false).isOpen = false ∧
    Dropdown.dispatch Dropdown.defaultConfig Dropdown.openedDefault
        (.docClick false false) = Dropdown.openedDefault ∧
    Menu.dispatch Dropdown.defaultConfig Dropdown.openedDefault
        (.docClick false false) = Dropdown.openedDefault ∧
    Dropdown.effectiveOpen Dropdown.defaultConfig
        (Dropdown.dispatch Dropdown.defaultConfig Dropdown.openedDefault
          (.blur false)) = false :=
  C3_outside_click_paths ⟨true⟩ Dropdown.defaultConfig Dropdown.openedDefault
    false false rfl rfl rfl

/-- C4: with trigger=hover and delay=200, a pointer-enter followed by a
pointer-leave before the delay elapses never makes the tooltip visible — not
at any observation time before the leave, and not at any time after it (the
pending delayed open is cancelled, not queued) — while a pointer-enter held
at least 200ms with no intervening leave makes it visible. -/
theorem C4_hover_debounce (tEnter tLeave T : ℕ)
    (hcancel : tLeave < tEnter + 200) :
    (T ≤ tLeave →
      (Tooltip.observe T (Tooltip.runEvents ⟨false, .hover, 200⟩
        [(tEnter, .mouseEnter)] Tooltip.init)).isVisible = false) ∧
    (∀ T2 : ℕ,
      (Tooltip.observe T2 (Tooltip.runEvents ⟨false, .hover, 200⟩
        [(tEnter, .mouseEnter), (tLeave, .mouseLeave)]
        Tooltip.init)).isVisible = false) ∧
    (tEnter + 200 ≤ T →
      (Tooltip.observe T (Tooltip.runEvents ⟨false, .hover, 200⟩
        [(tEnter, .mouseEnter)] Tooltip.init)).isVisible = true) := by
  have hne : ¬ (tEnter + 200 ≤ tLeave) := by omega
  refine ⟨?_, ?_, ?_⟩
  · intro hT
    have h1 : ¬ (tEnter + 200 ≤ T) := by omega
    simp [Tooltip.observe, Tooltip.runEvents, Tooltip.dispatch,
      Tooltip.fireDue, Tooltip.handleMouseEnter, Tooltip.handleMouseLeave,
      Tooltip.showTooltip, Tooltip.hideTooltip, Tooltip.init, h1]
  · intro T2
    simp [Tooltip.observe, Tooltip.runEvents, Tooltip.dispatch,
      Tooltip.fireDue, Tooltip.handleMouseEnter, Tooltip.handleMouseLeave,
      Tooltip.showTooltip, Tooltip.hideTooltip, Tooltip.init, hne]
  · intro hT
    simp [Tooltip.observe, Tooltip.runEvents, Tooltip.dispatch,
      Tooltip.fireDue, Tooltip.handleMouseEnter, Tooltip.handleMouseLeave,
      Tooltip.showTooltip, Tooltip.hideTooltip, Tooltip.init, hT]

/-- C4 witness: enter at 0 and leave at 100 is never visible (observed at
300), while enter at 0 held to 300 is visible. -/
theorem C4_hover_debounce_witness :
    (100 : ℕ) < 0 + 200 ∧
    (Tooltip.observe 300 (Tooltip.runEvents ⟨false, .hover, 200⟩
      [(0, .mouseEnter), (100, .mouseLeave)] Tooltip.init)).isVisible
      = false ∧
    (Tooltip.observe 300 (Tooltip.runEvents ⟨false, .hover, 200⟩
      [(0, .mouseEnter)] Tooltip.init)).isVisible = true :=
  ⟨by omega, (C4_hover_debounce 0 100 300 (by omega)).2.1 300,
    (C4_hover_debounce 0 100 300 (by omega)).2.2 (by omega)⟩

/-- C5: in controlled mode (controlledOpen supplied), handleClose and
handleToggle leave the internally tracked isOpen flag unchanged, only append
the intent value to the onOpenChange trace, and the rendered open flag keeps
equalling the externally supplied value. -/
theorem C5_controlled_mode_non_mutation (cfg : Dropdown.Config)
    (s : Dropdown.State) (b : Bool) (hc : cfg.controlledOpen = some b) :
    (Dropdown.handleClose cfg s).isOpen = s.isOpen ∧
    (Dropdown.handleToggle cfg s).isOpen = s.isOpen ∧
    Dropdown.effectiveOpen cfg (Dropdown.handleClose cfg s) = b ∧
    Dropdown.effectiveOpen cfg (Dropdown.handleToggle cfg s) = b ∧
    (Dropdown.handleClose cfg s).emitted = s.emitted ++ [false] ∧
    (Dropdown.handleToggle cfg s).emitted = s.emitted ++ [!b] := by
  simp [Dropdown.handleClose, Dropdown.handleToggle, Dropdown.isControlled,
    Dropdown.effectiveOpen, hc]

/-- C5 witness: the controlled configuration with open={true}: a close
request mutates nothing internal and the rendered flag stays true. -/
theorem C5_controlled_mode_non_mutation_witness :
    (Dropdown.handleClose Dropdown.controlledConfig Dropdown.init).isOpen
        = Dropdown.init.isOpen ∧
    (Dropdown.handleToggle Dropdown.controlledConfig Dropdown.init).isOpen
        = Dropdown.init.isOpen ∧
    Dropdown.effectiveOpen Dropdown.controlledConfig
        (Dropdown.handleClose Dropdown.controlledConfig Dropdown.init)
        = true ∧
    Dropdown.effectiveOpen Dropdown.controlledConfig
        (Dropdown.handleToggle Dropdown.controlledConfig Dropdown.init)
        = true ∧
    (Dropdown.handleClose Dropdown.controlledConfig Dropdown.init).emitted
        = Dropdown.init.emitted ++ [false] ∧
    (Dropdown.handleToggle Dropdown.controlledConfig Dropdown.init).emitted
        = Dropdown.init.emitted ++ [!true] :=
  C5_controlled_mode_non_mutation Dropdown.controlledConfig Dropdown.init
    true rfl

/-- Removing one registration changes the count of every listener by exactly
its match with the removed one. -/
lemma removeWindowListener_count (ls : List Listener) (a l : Listener) :
    (removeWindowListener ls a).count l =
      ls.count l - if l = a then 1 else 0 := by
  rcases eq_or_ne l a with h | h
  · subst h
    simp [removeWindowListener, List.count_erase]
  · simp [removeWindowListener, List.count_erase, h, Ne.symm h]

/-- Appending one registration raises the count of every listener by exactly
its match with the added one. -/
lemma addWindowListener_count (ls : List Listener) (a l : Listener) :
    (addWindowListener ls a).count l =
      ls.count l + if l = a then 1 else 0 := by
  rcases eq_or_ne l a with h | h
  · subst h
    simp [addWindowListener, List.count_append, List.count_singleton]
  · simp [addWindowListener, List.count_append, List.count_singleton, h,
      Ne.symm h]

/-- C6: one complete open-then-close cycle of a Dropdown or a Tooltip leaves
the window's listener list with the same count of every (event name, handler,
capture flag) registration as before: the resize/scroll listeners added by
the open effect are exactly removed by its cleanup. -/
theorem C6_listener_cleanup (h : ℕ) (ls : List Listener) (l : Listener) :
    (Dropdown.cleanupListeners h (Dropdown.openListeners h ls)).count l
        = ls.count l ∧
    (Tooltip.cleanupListeners h (Tooltip.openListeners h ls)).count l
        = ls.count l := by
  constructor <;>
    simp only [Dropdown.cleanupListeners, Dropdown.openListeners,
      Tooltip.cleanupListeners, Tooltip.openListeners,
      removeWindowListener_count, addWindowListener_count] <;>
    split_ifs <;> simp_all <;> omega

/-- C7: for an open uncontrolled Dropdown or Menu, an Escape keydown is a
no-op when closeOnEscape=false and closes the overlay when
closeOnEscape=true. -/
theorem C7_escape_close_gated (cfg : Dropdown.Config) (s : Dropdown.State)
    (hunc : cfg.controlledOpen = none) (hopen : s.isOpen = true) :
    (cfg.closeOnEscape = false →
      Dropdown.dispatch cfg s (.keydown "Escape") = s ∧
      Menu.dispatch cfg s (.keydown "Escape") = s) ∧
    (cfg.closeOnEscape = true →
      Dropdown.effectiveOpen cfg
        (Dropdown.dispatch cfg s (.keydown "Escape")) = false ∧
      Menu.effectiveOpen cfg
        (Menu.dispatch cfg s (.keydown "Escape")) = false) := by
  constructor <;> intro hesc <;>
    simp [Menu.dispatch, Menu.effectiveOpen, Dropdown.dispatch,
      Dropdown.handleEscape, Dropdown.handleClose, Dropdown.isControlled,
      Dropdown.effectiveOpen, hunc, hopen, hesc]

/-- C7 witness: an open default dropdown closes on Escape; with
closeOnEscape=false the same keydown changes nothing. -/
theorem C7_escape_close_gated_witness :
    (Dropdown.dispatch Dropdown.noEscapeConfig Dropdown.openedDefault
        (.keydown "Escape") = Dropdown.openedDefault) ∧
    Dropdown.effectiveOpen Dropdown.defaultConfig
        (Dropdown.dispatch Dropdown.defaultConfig Dropdown.openedDefault
          (.keydown "Escape")) = false :=
  ⟨((C7_escape_close_gated Dropdown.noEscapeConfig Dropdown.openedDefault
      rfl rfl).1 rfl).1,
   ((C7_escape_close_gated Dropdown.defaultConfig Dropdown.openedDefault
      rfl rfl).2 rfl).1⟩

/-- C8: a recompute call in which the trigger ref or the floating ref is null
is a total no-op — the Dropdown state (hence the stored position) and the
Tooltip position are returned unchanged — and a later call in which both
elements measure stores the resolver output. -/
theorem C8_null_ref_recompute_noop (cfg : Dropdown.Config)
    (s : Dropdown.State) (trigRect contRect : Option Rect) (st sl : ℚ)
    (posProp : Side) (al : Align) (off : ℚ) (pos : ℚ × ℚ)
    (h : trigRect = none ∨ contRect = none) :
    Dropdown.updatePosition cfg trigRect contRect st sl s = s ∧
    Tooltip.updatePositionStep trigRect contRect st sl posProp al off pos
        = pos ∧
    (∀ (tr cr : Rect) (st2 sl2 : ℚ),
      (Dropdown.updatePosition cfg (some tr) (some cr) st2 sl2
          (Dropdown.updatePosition cfg trigRect contRect st sl s)).position =
        Dropdown.resolve tr cr st2 sl2 cfg.placement cfg.align cfg.offset) := by
  rcases h with h | h <;> subst h <;>
    first
      | (cases contRect <;>
          simp [Dropdown.updatePosition, Tooltip.updatePositionStep])
      | (cases trigRect <;>
          simp [Dropdown.updatePosition, Tooltip.updatePositionStep])

/-- C8 witness: a null trigger ref at the default configuration. -/
theorem C8_null_ref_recompute_noop_witness :
    Dropdown.updatePosition Dropdown.defaultConfig none
        (some ⟨0, 0, 80, 40⟩) 0 0 Dropdown.init = Dropdown.init ∧
    Tooltip.updatePositionStep none (some ⟨0, 0, 80, 40⟩) 0 0 .top .center 8
        (0, 0) = (0, 0) ∧
    (∀ (tr cr : Rect) (st2 sl2 : ℚ),
      (Dropdown.updatePosition Dropdown.defaultConfig (some tr) (some cr)
          st2 sl2
          (Dropdown.updatePosition Dropdown.defaultConfig none
            (some ⟨0, 0, 80, 40⟩) 0 0 Dropdown.init)).position =
        Dropdown.resolve tr cr st2 sl2 Dropdown.defaultConfig.placement
          Dropdown.defaultConfig.align Dropdown.defaultConfig.offset) :=
  C8_null_ref_recompute_noop Dropdown.defaultConfig Dropdown.init none
    (some ⟨0, 0, 80, 40⟩) 0 0 .top .center 8 (0, 0) (Or.inl rfl)

/-- C9: the geometry step is deterministic and stateless — recomputing with
identical measurable inputs is idempotent on the component state, and the
position it stores does not depend on the prior state (no hidden state
influences the result), for both the Dropdown/Menu and the Tooltip
resolvers. -/
theorem C9_resolver_deterministic (cfg : Dropdown.Config) (tr cr : Rect)
    (st sl : ℚ) (s s2 : Dropdown.State) (posProp : Side) (al : Align)
    (off : ℚ) (p q : ℚ × ℚ) :
    Dropdown.updatePosition cfg (some tr) (some cr) st sl
        (Dropdown.updatePosition cfg (some tr) (some cr) st sl s) =
      Dropdown.updatePosition cfg (some tr) (some cr) st sl s ∧
    (Dropdown.updatePosition cfg (some tr) (some cr) st sl s).position =
      (Dropdown.updatePosition cfg (some tr) (some cr) st sl s2).position ∧
    Tooltip.updatePositionStep (some tr) (some cr) st sl posProp al off
        (Tooltip.updatePositionStep (some tr) (some cr) st sl posProp al off
          p) =
      Tooltip.updatePositionStep (some tr) (some cr) st sl posProp al off p ∧
    Tooltip.updatePositionStep (some tr) (some cr) st sl posProp al off p =
      Tooltip.updatePositionStep (some tr) (some cr) st sl posProp al off
        q := by
  simp [Dropdown.updatePosition, Tooltip.updatePositionStep]

/-- C10: in Tooltip, disabled=true blocks the hover and focus open paths
(mouse-enter and focus leave the state unchanged, so a closed tooltip stays
closed and nothing is scheduled), but not the click path: with
trigger='click' a click still toggles visibility in both directions. -/
theorem C10_disabled_gates_hover_focus_not_click (cfg : Tooltip.Config)
    (now : ℕ) (s : Tooltip.State) (hdis : cfg.disabled = true) :
    (cfg.trigger = .click →
      (Tooltip.handleClick cfg s).isVisible = !s.isVisible) ∧
    (cfg.trigger = .hover → Tooltip.handleMouseEnter cfg now s = s) ∧
    (cfg.trigger = .focus → Tooltip.handleFocus cfg now s = s) := by
  refine ⟨?_, ?_, ?_⟩ <;> intro ht <;>
    simp [Tooltip.handleClick, Tooltip.handleMouseEnter, Tooltip.handleFocus,
      Tooltip.showTooltip, hdis, ht]

/-- C10 witness: with disabled=true, a click toggles a closed click-tooltip
open, while a mouse-enter on a hover-tooltip and a focus on a focus-tooltip
change nothing. -/
theorem C10_disabled_gates_witness :
    (Tooltip.handleClick ⟨true, .click, 200⟩ Tooltip.init).isVisible
        = !Tooltip.init.isVisible ∧
    Tooltip.handleMouseEnter ⟨true, .hover, 200⟩ 0 Tooltip.init
        = Tooltip.init ∧
    Tooltip.handleFocus ⟨true, .focus, 200⟩ 0 Tooltip.init = Tooltip.init :=
  ⟨(C10_disabled_gates_hover_focus_not_click ⟨true, .click, 200⟩ 0
      Tooltip.init rfl).1 rfl,
   (C10_disabled_gates_hover_focus_not_click ⟨true, .hover, 200⟩ 0
      Tooltip.init rfl).2.1 rfl,
   (C10_disabled_gates_hover_focus_not_click ⟨true, .focus, 200⟩ 0
      Tooltip.init rfl).2.2 rfl⟩
